import Mathlib

/-!
Verification of the project/task management repository: a shallow embedding
of the client storage model (`src/lib/storage.ts`), the SQL schema artefacts
(migration file: trigger and row-level-security policies), the data-access
hooks (`useTasks` / `createTaskNotification`), and the three serverless
handlers (`admin-create-user`, `admin-delete-user`, `send-task-notification`).
Date strings (`new Date().toISOString()`) are passed in as a `now` parameter,
and generated uuids as a `newId` parameter.  JavaScript truthiness of an
optional string is modelled by `isTruthy` (absent and empty strings are
falsy).  `findIndex` followed by `splice(index, 1)` is rendered as
`List.eraseP` (remove first match), and `findIndex` followed by reading the
element at that index is rendered as `List.find?` (first match).
-/

namespace PMApp

/-- JavaScript truthiness of a `string | null | undefined` value:
`null` / `undefined` and the empty string are falsy. -/
def isTruthy : Option String → Bool
  | none => false
  | some s => !(s == "")

/-! ## Storage model (`src/lib/storage.ts`, types from `src/types`) -/

/-- `User` from `src/types`; `role` is the string `ADMIN` or `USER`. -/
structure User where
  id : String
  email : String
  name : String
  role : String
  avatar : Option String := none
  isActive : Bool
  createdAt : String
  updatedAt : String
deriving Repr, DecidableEq

/-- `Project` from `src/types`. -/
structure Project where
  id : String
  name : String
  description : String
  startDate : String
  endDate : String
  status : String
  ownerId : String
  members : List String
  createdAt : String
  updatedAt : String
deriving Repr, DecidableEq

/-- `Task` from `src/types`. -/
structure Task where
  id : String
  projectId : String
  title : String
  description : String
  priority : String
  status : String
  assigneeId : Option String
  dueDate : Option String
  createdAt : String
  updatedAt : String
deriving Repr, DecidableEq

/-- `Notification` from `src/types`. -/
structure Notification where
  id : String
  userId : String
  type : String
  title : String
  message : String
  isRead : Bool
  relatedId : Option String := none
  createdAt : String
deriving Repr, DecidableEq

/-- `AppData` from `src/types`: the persisted localStorage state. -/
structure AppData where
  users : List User
  projects : List Project
  tasks : List Task
  notifications : List Notification
deriving Repr, DecidableEq

/-- `validateCredentials(email, password)` from `src/lib/storage.ts`:
the credentials object is an email-keyed map, modelled as an association
list; `credentials[email] === password` is the lookup comparison, and on
success the first user with that email that is active is returned. -/
def validateCredentials (credentials : List (String × String)) (data : AppData)
    (email password : String) : Option User :=
  if credentials.lookup email == some password then
    data.users.find? (fun u => u.email == email && u.isActive)
  else
    none

/-- `deleteUser(id)` from `src/lib/storage.ts`.  Returns the boolean result
together with the updated state.  The source finds the index of the target,
refuses when the target is an `ADMIN` and exactly one `ADMIN` exists, and
otherwise splices the target out. -/
def deleteUser (data : AppData) (id : String) : Bool × AppData :=
  match data.users.find? (fun u => u.id == id) with
  | none => (false, data)
  | some target =>
    let admins := data.users.filter (fun u => u.role == "ADMIN")
    if admins.length == 1 && target.role == "ADMIN" then
      (false, data)
    else
      (true, { data with users := data.users.eraseP (fun u => u.id == id) })

/-- `getProjectsForUser(userId)` from `src/lib/storage.ts`: projects whose
owner is the user or whose member list contains the user.  There is no
admin special case in this function. -/
def getProjectsForUser (data : AppData) (userId : String) : List Project :=
  data.projects.filter (fun p => p.ownerId == userId || p.members.contains userId)

/-- `deleteProject(id)` from `src/lib/storage.ts`: when the project exists,
all tasks of that project are removed and the project is spliced out. -/
def deleteProject (data : AppData) (id : String) : Bool × AppData :=
  match data.projects.find? (fun p => p.id == id) with
  | none => (false, data)
  | some _ =>
    (true, { data with
              tasks := data.tasks.filter (fun t => !(t.projectId == id)),
              projects := data.projects.eraseP (fun p => p.id == id) })

/-- A `Partial<Task>` update object: a field that is present overrides the
old value under JavaScript object spread. -/
structure TaskPatch where
  id : Option String := none
  projectId : Option String := none
  title : Option String := none
  description : Option String := none
  priority : Option String := none
  status : Option String := none
  assigneeId : Option (Option String) := none
  dueDate : Option (Option String) := none
  createdAt : Option String := none
  updatedAt : Option String := none
deriving Repr, DecidableEq

/-- The spread `{ ...oldTask, ...updates }` of `updateTask`. -/
def spreadTask (old : Task) (u : TaskPatch) : Task :=
  { id := u.id.getD old.id
    projectId := u.projectId.getD old.projectId
    title := u.title.getD old.title
    description := u.description.getD old.description
    priority := u.priority.getD old.priority
    status := u.status.getD old.status
    assigneeId := u.assigneeId.getD old.assigneeId
    dueDate := u.dueDate.getD old.dueDate
    createdAt := u.createdAt.getD old.createdAt
    updatedAt := u.updatedAt.getD old.updatedAt }

/-- Replace the first element satisfying `p` (assignment to the found
index in the source). -/
def replaceFirst (p : α → Bool) (a : α) : List α → List α
  | [] => []
  | x :: xs => if p x then a :: xs else x :: replaceFirst p a xs

/-- `updateTask(id, updates)` from `src/lib/storage.ts`:
`data.tasks[index] = { ...oldTask, ...updates, updatedAt: now }`.
The notification side effect of the source is omitted here; only the task
mutation is modelled (the notification side is modelled on the hook flow,
which is what the claims cite). -/
def updateTask (data : AppData) (id : String) (updates : TaskPatch) (now : String) :
    Option Task × AppData :=
  match data.tasks.find? (fun t => t.id == id) with
  | none => (none, data)
  | some oldTask =>
    let merged := { spreadTask oldTask updates with updatedAt := now }
    (some merged, { data with tasks := replaceFirst (fun t => t.id == id) merged data.tasks })

/-! ## SQL schema model (migration file)

`user_roles` rows are `(user_id, role)` pairs with role the string `admin`
or `user`; `project_members` rows are `(project_id, user_id)` pairs. -/

/-- A row of `public.projects` (only the columns the policies read). -/
structure SqlProject where
  id : String
  owner_id : String
deriving Repr, DecidableEq

/-- Database state visible to the row-level-security policies. -/
structure PolicyDb where
  userRoles : List (String × String)
  projectMembers : List (String × String)
deriving Repr, DecidableEq

/-- `public.has_role(_user_id, _role)`: a matching `user_roles` row exists. -/
def hasRole (db : PolicyDb) (uid role : String) : Bool :=
  db.userRoles.any (fun r => r.1 == uid && r.2 == role)

/-- `public.is_admin(_user_id)`. -/
def isAdminSql (db : PolicyDb) (uid : String) : Bool :=
  hasRole db uid ("admin")

/-- The `USING` predicate of the policy `Everyone can view projects they
are part of`: owner, or a `project_members` row, or admin. -/
def projectSelectPolicy (db : PolicyDb) (uid : String) (p : SqlProject) : Bool :=
  p.owner_id == uid ||
  db.projectMembers.any (fun m => m.1 == p.id && m.2 == uid) ||
  isAdminSql db uid

/-- A row of `public.tasks` (columns of the migration). -/
structure SqlTask where
  id : String
  project_id : String
  title : String
  description : Option String := none
  priority : String
  status : String
  assignee_id : Option String := none
  due_date : Option String := none
  created_at : String
  updated_at : String
deriving Repr, DecidableEq

/-- An `UPDATE` payload for `public.tasks` (`TablesUpdate<'tasks'>`): a
column that is present replaces the stored value. -/
structure SqlTaskPatch where
  id : Option String := none
  project_id : Option String := none
  title : Option String := none
  description : Option (Option String) := none
  priority : Option String := none
  status : Option String := none
  assignee_id : Option (Option String) := none
  due_date : Option (Option String) := none
  created_at : Option String := none
  updated_at : Option String := none
deriving Repr, DecidableEq

/-- Column-wise application of an update payload to a stored row. -/
def applySqlTaskPatch (u : SqlTaskPatch) (t : SqlTask) : SqlTask :=
  { id := u.id.getD t.id
    project_id := u.project_id.getD t.project_id
    title := u.title.getD t.title
    description := u.description.getD t.description
    priority := u.priority.getD t.priority
    status := u.status.getD t.status
    assignee_id := u.assignee_id.getD t.assignee_id
    due_date := u.due_date.getD t.due_date
    created_at := u.created_at.getD t.created_at
    updated_at := u.updated_at.getD t.updated_at }

/-- `public.update_updated_at_column()`: the `BEFORE UPDATE` trigger on
`public.tasks` sets `NEW.updated_at = now()` and returns `NEW`. -/
def updateUpdatedAtColumn (now : String) (newRow : SqlTask) : SqlTask :=
  { newRow with updated_at := now }

/-- One row updated through SQL: the client payload is applied, then the
`update_tasks_updated_at` trigger runs on the new row. -/
def sqlUpdateTaskRow (now : String) (u : SqlTaskPatch) (t : SqlTask) : SqlTask :=
  updateUpdatedAtColumn now (applySqlTaskPatch u t)

/-! ## Client data-access model (`useTasks` hooks and the notification
helper appended to the migration sources, `useNotificationSettings`) -/

/-- A row of `public.notification_settings`. -/
structure SettingsRow where
  user_id : String
  email_task_assigned : Bool := true
  email_task_updated : Bool := true
  email_project_invite : Bool := true
  in_app_task_assigned : Bool := true
  in_app_task_updated : Bool := true
  in_app_project_invite : Bool := true
deriving Repr, DecidableEq

/-- A row of `public.notifications` as inserted by the client helper. -/
structure SqlNotification where
  user_id : String
  type : String
  title : String
  message : String
  related_id : Option String := none
  is_read : Bool := false
deriving Repr, DecidableEq

/-- A row of `public.profiles` (columns the handlers read). -/
structure ProfileRow where
  user_id : String
  email : String
  name : String
deriving Repr, DecidableEq

/-- A row of `public.email_logs` as inserted by the email handler. -/
structure EmailLog where
  to_user_id : String
  to_email : String
  subject : String
  body : String
deriving Repr, DecidableEq

/-- Database state touched by the client task flows and the email
handler. -/
structure ClientDb where
  tasks : List SqlTask
  notifications : List SqlNotification
  notificationSettings : List SettingsRow
  profiles : List ProfileRow
  emailLogs : List EmailLog
deriving Repr, DecidableEq

/-- Observable notification events of one call: a per-channel
eligibility check, an in-app notification insert, an email send. -/
inductive Ev where
  | inAppCheck (userId : String)
  | notifInsert (userId : String)
  | emailCheck (userId : String)
  | emailSend (userId : String)
deriving Repr, DecidableEq

/-- Is the event an in-app eligibility check? -/
def Ev.isInAppCheck : Ev → Bool
  | .inAppCheck _ => true
  | _ => false

/-- Is the event an email eligibility check? -/
def Ev.isEmailCheck : Ev → Bool
  | .emailCheck _ => true
  | _ => false

/-- Is the event an in-app notification insert? -/
def Ev.isNotifInsert : Ev → Bool
  | .notifInsert _ => true
  | _ => false

/-- Number of in-app eligibility checks in a trace. -/
def countInAppChecks (evs : List Ev) : Nat := (evs.filter Ev.isInAppCheck).length

/-- Number of email eligibility checks in a trace. -/
def countEmailChecks (evs : List Ev) : Nat := (evs.filter Ev.isEmailCheck).length

/-- `settings?.in_app_task_assigned ?? true` and
`settings?.in_app_task_updated ?? true`: the in-app gate of
`createTaskNotification`, defaulting to enabled without a row. -/
def shouldShowInApp (settings : Option SettingsRow) (typ : String) : Bool :=
  if typ == "assigned" then
    (settings.map (fun s => s.in_app_task_assigned)).getD true
  else
    (settings.map (fun s => s.in_app_task_updated)).getD true

/-- `settings?.email_task_assigned ?? true` and
`settings?.email_task_updated ?? true`: the email gate of the
`send-task-notification` handler, defaulting to enabled without a row. -/
def shouldSendEmail (settings : Option SettingsRow) (typ : String) : Bool :=
  if typ == "assigned" then
    (settings.map (fun s => s.email_task_assigned)).getD true
  else
    (settings.map (fun s => s.email_task_updated)).getD true

/-- `createTaskNotification(userId, taskId, taskTitle, type)` from the
`useTasks` hook sources: one `notification_settings` lookup
(`maybeSingle`, errors ignored), one in-app gate, and an insert into
`notifications` when the gate is open (insert result ignored, so a failed
insert — `notifInsertFails` — changes no state and raises no error).  The
source performs no email eligibility check and never contacts the email
endpoint (`Email notifications disabled for now`). -/
def createTaskNotification (db : ClientDb) (userId taskId taskTitle : String)
    (typ : String) (notifInsertFails : Bool) : ClientDb × List Ev :=
  if shouldShowInApp (db.notificationSettings.find? (fun s => s.user_id == userId)) typ then
    let row : SqlNotification :=
      { user_id := userId
        type := if typ == "assigned" then "TASK_ASSIGNED" else "TASK_UPDATED"
        title := if typ == "assigned" then "New Task Assigned" else "Task Updated"
        message := if typ == "assigned" then
            "You have been assigned to " ++ taskTitle
          else
            "Task " ++ taskTitle ++ " has been updated"
        related_id := some taskId
        is_read := false }
    (if notifInsertFails then db
     else { db with notifications := db.notifications ++ [row] },
     [Ev.inAppCheck userId, Ev.notifInsert userId])
  else
    (db, [Ev.inAppCheck userId])

/-- A `TablesInsert<'tasks'>` payload. -/
structure TaskInsert where
  project_id : String
  title : String
  description : Option String := none
  priority : Option String := none
  status : Option String := none
  assignee_id : Option String := none
  due_date : Option String := none
deriving Repr, DecidableEq

/-- The stored row produced by inserting a task payload: database column
defaults (`MEDIUM`, `PENDING`, `now()`) fill absent values. -/
def insertTaskRow (t : TaskInsert) (newId now : String) : SqlTask :=
  { id := newId
    project_id := t.project_id
    title := t.title
    description := t.description
    priority := t.priority.getD ("MEDIUM")
    status := t.status.getD ("PENDING")
    assignee_id := t.assignee_id
    due_date := t.due_date
    created_at := now
    updated_at := now }

/-- The `mutationFn` of `useCreateTask`: insert the task (a failed insert
throws before any notification work), then, when the payload's
`assignee_id` is truthy, run `createTaskNotification` for the `assigned`
type. -/
def useCreateTaskFn (db : ClientDb) (task : TaskInsert) (newId now : String)
    (insertFails notifInsertFails : Bool) :
    Except Unit SqlTask × ClientDb × List Ev :=
  if insertFails then
    (Except.error (), db, [])
  else
    let row := insertTaskRow task newId now
    let db1 := { db with tasks := db.tasks ++ [row] }
    if isTruthy task.assignee_id then
      let r := createTaskNotification db1 (task.assignee_id.getD (""))
        row.id row.title ("assigned") notifInsertFails
      (Except.ok row, r.1, r.2)
    else
      (Except.ok row, db1, [])

/-- The `mutationFn` of `useUpdateTask`: update the row by id (the update
plus the `updated_at` trigger; a failed update or a missing row throws
before any notification work), then notify the new assignee when
`updates.assignee_id` is truthy and differs from `previousAssigneeId`,
else notify the previous assignee when `updates.status` is truthy and a
previous assignee exists. -/
def useUpdateTaskFn (db : ClientDb) (id : String) (updates : SqlTaskPatch)
    (previousAssigneeId : Option String) (now : String)
    (updateFails notifInsertFails : Bool) :
    Except Unit SqlTask × ClientDb × List Ev :=
  if updateFails then
    (Except.error (), db, [])
  else
    match db.tasks.find? (fun t => t.id == id) with
    | none => (Except.error (), db, [])
    | some old =>
      let row := sqlUpdateTaskRow now updates old
      let db1 := { db with tasks := replaceFirst (fun t => t.id == id) row db.tasks }
      if isTruthy updates.assignee_id.join &&
          !(updates.assignee_id.join == previousAssigneeId) then
        let r := createTaskNotification db1 (updates.assignee_id.join.getD (""))
          row.id row.title ("assigned") notifInsertFails
        (Except.ok row, r.1, r.2)
      else if isTruthy updates.status && isTruthy previousAssigneeId then
        let r := createTaskNotification db1 (previousAssigneeId.getD (""))
          row.id row.title ("updated") notifInsertFails
        (Except.ok row, r.1, r.2)
      else
        (Except.ok row, db1, [])

/-! ## Serverless handler models

HTTP responses: every error body in the sources is the JSON object
`{ error: message }`, modelled by `Body.jsonError`; success bodies are
collapsed to tags.  The authenticated caller resolved from the bearer
token is an `Option String` (`none` when `getUser` fails), the parsed
JSON request body is an `Except String _` (`Except.error msg` when
`req.json()` throws, landing in the catch-all 500), and upstream
admin-API failures are injected booleans. -/

/-- Response bodies of the handlers. -/
inductive Body where
  | empty
  | jsonError (msg : String)
  | jsonSuccess
  | jsonSuccessSkipped
  | jsonSuccessEmail
deriving Repr, DecidableEq

/-- An HTTP response: status code and body. -/
structure Response where
  status : Nat
  body : Body
deriving Repr, DecidableEq

/-- Auth-service state seen by the admin endpoints: the registered auth
user ids and the `user_roles` rows. -/
structure EdgeDb where
  authUsers : List String
  userRoles : List (String × String)
deriving Repr, DecidableEq

/-- `.single()`: exactly one row, otherwise an error (`none`). -/
def singleRow (rows : List α) : Option α :=
  match rows with
  | [r] => some r
  | _ => none

/-- The caller's role via `.from('user_roles').select('role')
.eq('user_id', uid).single()`. -/
def singleRole (db : EdgeDb) (uid : String) : Option String :=
  (singleRow (db.userRoles.filter (fun r => r.1 == uid))).map (fun r => r.2)

/-- `adminClient.auth.admin.deleteUser(userId)`: the auth user goes away
and its `user_roles` rows cascade. -/
def deleteUserEffect (db : EdgeDb) (uid : String) : EdgeDb :=
  { authUsers := db.authUsers.filter (fun u => !(u == uid))
    userRoles := db.userRoles.filter (fun r => !(r.1 == uid)) }

/-- `adminClient.auth.admin.createUser(...)` plus the `handle_new_user`
trigger: a new auth user and a default `user` role row. -/
def createUserEffect (db : EdgeDb) (newId : String) : EdgeDb :=
  { authUsers := db.authUsers ++ [newId]
    userRoles := db.userRoles ++ [(newId, "user")] }

/-- Result of an admin endpoint call: the response, the resulting auth
state, and how many admin-API mutation calls were made. -/
structure HandlerResult where
  resp : Response
  db : EdgeDb
  adminApiCalls : Nat
deriving Repr, DecidableEq

/-- The `admin-delete-user` handler (second part of
`send-task-notification/index.ts`): CORS preflight, 401 without a header
or an authenticated user, 403 unless the caller's single role row is
`admin`, 400 on a missing body user id, 400 on self-deletion, 500 when
the admin-count query fails, 400 when the target's role row is `admin`
and at most one admin row exists, 400 when the admin delete call errors
(including a target unknown to the auth service), else 200 with the user
deleted.  A thrown body parse lands in the catch-all 500. -/
def adminDeleteUser (db : EdgeDb) (method : String) (authHeader : Option String)
    (authUser : Option String) (body : Except String (Option String))
    (adminsQueryFails deleteFails : Bool) : HandlerResult :=
  if method == "OPTIONS" then
    ⟨⟨200, Body.empty⟩, db, 0⟩
  else
    match authHeader with
    | none => ⟨⟨401, Body.jsonError ("No authorization header")⟩, db, 0⟩
    | some _ =>
      match authUser with
      | none => ⟨⟨401, Body.jsonError ("Unauthorized")⟩, db, 0⟩
      | some callerId =>
        if !(singleRole db callerId == some ("admin")) then
          ⟨⟨403, Body.jsonError ("Only admins can delete users")⟩, db, 0⟩
        else
          match body with
          | Except.error msg => ⟨⟨500, Body.jsonError msg⟩, db, 0⟩
          | Except.ok bodyUserId =>
            if !(isTruthy bodyUserId) then
              ⟨⟨400, Body.jsonError ("User ID is required")⟩, db, 0⟩
            else
              let userId := bodyUserId.getD ("")
              if userId == callerId then
                ⟨⟨400, Body.jsonError ("Cannot delete your own account")⟩, db, 0⟩
              else if adminsQueryFails then
                ⟨⟨500, Body.jsonError ("Failed to check admin count")⟩, db, 0⟩
              else
                let admins := db.userRoles.filter (fun r => r.2 == "admin")
                if singleRole db userId == some ("admin") && admins.length ≤ 1 then
                  ⟨⟨400, Body.jsonError ("Cannot delete the last admin user")⟩, db, 0⟩
                else if deleteFails || !(db.authUsers.contains userId) then
                  ⟨⟨400, Body.jsonError ("delete failed")⟩, db, 1⟩
                else
                  ⟨⟨200, Body.jsonSuccess⟩, deleteUserEffect db userId, 1⟩

/-- The parsed JSON body of a create-user request. -/
structure CreateBody where
  email : Option String := none
  password : Option String := none
  name : Option String := none
  role : Option String := none
deriving Repr, DecidableEq

/-- The `admin-create-user` handler: CORS preflight, 401 without a header
or an authenticated user, 403 unless the caller's single role row is
`admin`, 400 when email, password or name is falsy, 400 when the admin
create call errors, else 200 with the user created (and, when the
requested role is `admin`, the new user's role row updated; a failure of
that update is only logged). -/
def adminCreateUser (db : EdgeDb) (method : String) (authHeader : Option String)
    (authUser : Option String) (body : Except String CreateBody)
    (createFails : Bool) (newId : String) : HandlerResult :=
  if method == "OPTIONS" then
    ⟨⟨200, Body.empty⟩, db, 0⟩
  else
    match authHeader with
    | none => ⟨⟨401, Body.jsonError ("No authorization header")⟩, db, 0⟩
    | some _ =>
      match authUser with
      | none => ⟨⟨401, Body.jsonError ("Unauthorized")⟩, db, 0⟩
      | some callerId =>
        if !(singleRole db callerId == some ("admin")) then
          ⟨⟨403, Body.jsonError ("Only admins can create users")⟩, db, 0⟩
        else
          match body with
          | Except.error msg => ⟨⟨500, Body.jsonError msg⟩, db, 0⟩
          | Except.ok b =>
            if !(isTruthy b.email) || !(isTruthy b.password) || !(isTruthy b.name) then
              ⟨⟨400, Body.jsonError ("Email, password, and name are required")⟩, db, 0⟩
            else if createFails then
              ⟨⟨400, Body.jsonError ("create failed")⟩, db, 1⟩
            else
              let db1 := createUserEffect db newId
              let promoted := db1.userRoles.map
                (fun r => if r.1 == newId then (r.1, "admin") else r)
              let db2 :=
                if b.role == some ("admin") then { db1 with userRoles := promoted }
                else db1
              ⟨⟨200, Body.jsonSuccess⟩, db2, 1⟩

/-- The parsed JSON body of a `send-task-notification` request. -/
structure NotifyBody where
  userId : String
  taskId : String
  taskTitle : String
  type : String
deriving Repr, DecidableEq

/-- Result of the email handler: response, client database, events. -/
structure EmailResult where
  resp : Response
  db : ClientDb
  evs : List Ev
deriving Repr, DecidableEq

/-- The `send-task-notification` handler (first part of its sources):
CORS preflight; 404 when the profile `.single()` lookup fails; one email
eligibility check against `notification_settings` (`maybeSingle`, errors
ignored, flags default to enabled); 200 skipped when the gate is closed;
otherwise the email is sent (a throwing send lands in the catch-all 500)
and the email log insert's result is ignored (`emailLogFails` loses the
log row but not the 200).  The handler never touches `tasks`. -/
def sendTaskNotification (db : ClientDb) (method : String)
    (body : Except String NotifyBody) (emailSendFails emailLogFails : Bool) :
    EmailResult :=
  if method == "OPTIONS" then
    ⟨⟨200, Body.empty⟩, db, []⟩
  else
    match body with
    | Except.error msg => ⟨⟨500, Body.jsonError msg⟩, db, []⟩
    | Except.ok req =>
      match singleRow (db.profiles.filter (fun p => p.user_id == req.userId)) with
      | none => ⟨⟨404, Body.jsonError ("User profile not found")⟩, db, []⟩
      | some profile =>
        if !(shouldSendEmail (db.notificationSettings.find?
            (fun s => s.user_id == req.userId)) req.type) then
          ⟨⟨200, Body.jsonSuccessSkipped⟩, db, [Ev.emailCheck req.userId]⟩
        else if emailSendFails then
          ⟨⟨500, Body.jsonError ("send failed")⟩, db, [Ev.emailCheck req.userId]⟩
        else
          let subject := if req.type == "assigned" then
              "New Task Assigned to You" else "Task Updated"
          let message := if req.type == "assigned" then
              "You have been assigned to " ++ req.taskTitle
            else
              "Task " ++ req.taskTitle ++ " has been updated"
          let log : EmailLog :=
            { to_user_id := req.userId, to_email := profile.email
              subject := subject, body := message }
          ⟨⟨200, Body.jsonSuccessEmail⟩,
            (if emailLogFails then db else { db with emailLogs := db.emailLogs ++ [log] }),
            [Ev.emailCheck req.userId, Ev.emailSend req.userId]⟩

/-- A concrete active user. -/
def activeUser : User :=
  { id := "u8", email := "e@x", name := "E", role := "USER", isActive := true,
    createdAt := "c", updatedAt := "c" }

/-- A concrete deactivated user with the same email. -/
def inactiveUser : User :=
  { id := "u9", email := "e@x", name := "E", role := "USER", isActive := false,
    createdAt := "c", updatedAt := "c" }

/-- Credentials store holding the password for `e@x`. -/
def sampleCreds : List (String × String) := [("e@x", "pw")]

/-- State with only the active `e@x` user. -/
def dataActive : AppData :=
  { users := [activeUser], projects := [], tasks := [], notifications := [] }

/-- State with only the deactivated `e@x` user. -/
def dataInactive : AppData :=
  { users := [inactiveUser], projects := [], tasks := [], notifications := [] }

/-- A concrete sample project used by witnesses. -/
def sampleProject : Project :=
  { id := "p1", name := "P", description := "", startDate := "", endDate := "",
    status := "ACTIVE", ownerId := "u1", members := [], createdAt := "c", updatedAt := "c" }

/-- A concrete sample task in project `p1`. -/
def sampleTask1 : Task :=
  { id := "t1", projectId := "p1", title := "A", description := "",
    priority := "MEDIUM", status := "PENDING", assigneeId := none,
    dueDate := none, createdAt := "c", updatedAt := "c" }

/-- A concrete sample task in project `p2`. -/
def sampleTask2 : Task :=
  { id := "t2", projectId := "p2", title := "B", description := "",
    priority := "MEDIUM", status := "PENDING", assigneeId := none,
    dueDate := none, createdAt := "c", updatedAt := "c" }

/-- A concrete sample state with one project and two tasks. -/
def sampleData : AppData :=
  { users := [], projects := [sampleProject],
    tasks := [sampleTask1, sampleTask2], notifications := [] }

/-- A concrete admin user `a1`. -/
def adminUser1 : User :=
  { id := "a1", email := "a1@x", name := "A1", role := "ADMIN", isActive := true,
    createdAt := "c", updatedAt := "c" }

/-- A concrete admin user `a2`. -/
def adminUser2 : User :=
  { id := "a2", email := "a2@x", name := "A2", role := "ADMIN", isActive := true,
    createdAt := "c", updatedAt := "c" }

/-- A concrete non-admin user `u1`. -/
def normalUser : User :=
  { id := "u1", email := "u1@x", name := "U1", role := "USER", isActive := true,
    createdAt := "c", updatedAt := "c" }

/-- State whose only admin is `a1`. -/
def dataOneAdmin : AppData :=
  { users := [adminUser1, normalUser], projects := [], tasks := [], notifications := [] }

/-- State with the two admins `a1` and `a2`. -/
def dataTwoAdmins : AppData :=
  { users := [adminUser1, adminUser2], projects := [], tasks := [], notifications := [] }

/-- Auth-service state with the two admins `a1` and `a2`. -/
def edgeDbTwoAdmins : EdgeDb :=
  { authUsers := ["a1", "a2"], userRoles := [("a1", "admin"), ("a2", "admin")] }

/-- Auth-service state with the plain user `u1` and the admin `a1`. -/
def edgeDbOneUser : EdgeDb :=
  { authUsers := ["u1", "a1"], userRoles := [("u1", "user"), ("a1", "admin")] }

/-- The fixed status codes of the admin endpoints. -/
def statusAllowed (r : Response) : Bool :=
  r.status == 200 || r.status == 400 || r.status == 401 || r.status == 403 ||
    r.status == 500

/-- Every non-200 response carries a JSON `error` body. -/
def errorBodyShape (r : Response) : Bool :=
  r.status == 200 ||
    (match r.body with
     | Body.jsonError _ => true
     | _ => false)

/-- Policy database where `a1` is an admin and nothing else is recorded. -/
def policyDbAdminA : PolicyDb :=
  { userRoles := [("a1", "admin")], projectMembers := [] }

/-- An SQL project row owned by `b1`. -/
def sqlProjectB : SqlProject := { id := "p1", owner_id := "b1" }

/-- A storage project owned by `b1` with no members. -/
def projForeign : Project :=
  { id := "p1", name := "P", description := "", startDate := "", endDate := "",
    status := "ACTIVE", ownerId := "b1", members := [], createdAt := "c",
    updatedAt := "c" }

/-- Storage state holding only `b1`'s project. -/
def dataForeign : AppData :=
  { users := [], projects := [projForeign], tasks := [], notifications := [] }

/-- A concrete task whose `createdAt` is the original value. -/
def oldTask5 : Task :=
  { id := "t1", projectId := "p1", title := "A", description := "",
    priority := "MEDIUM", status := "PENDING", assigneeId := none,
    dueDate := none, createdAt := "2020-01-01", updatedAt := "2020-01-01" }

/-- Storage state holding only that task. -/
def data5 : AppData :=
  { users := [], projects := [], tasks := [oldTask5], notifications := [] }

/-- A client update payload that smuggles in a new `createdAt`. -/
def patch5 : TaskPatch := { createdAt := some ("2031-01-01") }

/-- An SQL update payload that smuggles in a new `created_at`. -/
def sqlPatch5 : SqlTaskPatch := { created_at := some ("2031-01-01") }

/-- The same task as a stored SQL row. -/
def sqlTask5 : SqlTask :=
  { id := "t1", project_id := "p1", title := "A", priority := "MEDIUM",
    status := "PENDING", created_at := "2020-01-01", updated_at := "2020-01-01" }

/-- An empty client database. -/
def clientDb0 : ClientDb :=
  { tasks := [], notifications := [], notificationSettings := [], profiles := [],
    emailLogs := [] }

/-- A task insert payload assigned to `u1`. -/
def taskInsertA : TaskInsert :=
  { project_id := "p1", title := "T", assignee_id := some ("u1") }

/-- A task insert payload without an assignee. -/
def taskInsertNoA : TaskInsert := { project_id := "p1", title := "T" }

/-- A concrete profile row for `u1`. -/
def profileU1 : ProfileRow := { user_id := "u1", email := "u1@x", name := "U1" }

/-- Client database holding only `u1`'s profile. -/
def clientDbP : ClientDb :=
  { tasks := [], notifications := [], notificationSettings := [],
    profiles := [profileU1], emailLogs := [] }

/-- A concrete notification request for `u1`. -/
def notifyBodyA : NotifyBody :=
  { userId := "u1", taskId := "t1", taskTitle := "T", type := "assigned" }

/-- Client database holding one stored task row. -/
def clientDbT : ClientDb :=
  { tasks := [sqlTask5], notifications := [], notificationSettings := [],
    profiles := [], emailLogs := [] }

/-! ## Theorems for the claims -/

/-- A list containing two distinct elements has length at least two. -/
theorem two_mem_le_length {α : Type} {l : List α} {a b : α}
    (ha : a ∈ l) (hb : b ∈ l) (hne : a ≠ b) : 2 ≤ l.length := by
  induction l with
  | nil => cases ha
  | cons x xs ih =>
    rcases List.mem_cons.mp ha with hax | hax
    · have hbx : b ∈ xs := by
        rcases List.mem_cons.mp hb with hbb | hbb
        · exact absurd (hax.trans hbb.symm) hne
        · exact hbb
      have := List.length_pos_of_mem hbx
      simp only [List.length_cons]
      omega
    · rcases List.mem_cons.mp hb with hbb | hbb
      · have := List.length_pos_of_mem hax
        simp only [List.length_cons]
        omega
      · have := ih hax hbb
        simp only [List.length_cons]
        omega

/-- A successful `singleRole` lookup exhibits the underlying
`user_roles` row. -/
theorem mem_of_singleRole {db : EdgeDb} {uid role : String}
    (h : singleRole db uid = some role) : (uid, role) ∈ db.userRoles := by
  unfold singleRole singleRow at h
  cases hf : db.userRoles.filter (fun r => r.1 == uid) with
  | nil => rw [hf] at h; simp at h
  | cons r rs =>
    cases rs with
    | cons r2 rs2 => rw [hf] at h; simp at h
    | nil =>
      rw [hf] at h
      simp only [Option.map_some] at h
      have hr2 : r.2 = role := by simpa using h
      have hr : r ∈ db.userRoles.filter (fun x => x.1 == uid) := by
        rw [hf]; exact List.mem_singleton_self r
      obtain ⟨hmem, heq⟩ := List.mem_filter.mp hr
      have hr1 : r.1 = uid := by simpa using heq
      have : r = (uid, role) := by
        obtain ⟨r1, r2⟩ := r
        simp only [Prod.mk.injEq]
        exact ⟨hr1, hr2⟩
      rwa [this] at hmem

/-- Claim C10: `validateCredentials` returns a user only when the stored
credential for the email equals the supplied password and an active user
with that email exists; when every user with that email is deactivated it
returns null even for a correct password. -/
theorem validateCredentials_active_only
    (credentials : List (String × String)) (data : AppData) (email password : String) :
    (∀ u, validateCredentials credentials data email password = some u →
      credentials.lookup email = some password ∧ u ∈ data.users ∧
      u.email = email ∧ u.isActive = true) ∧
    ((∀ u ∈ data.users, u.email = email → u.isActive = false) →
      validateCredentials credentials data email password = none) := by
  constructor
  · intro u h
    unfold validateCredentials at h
    by_cases hc : credentials.lookup email == some password
    · rw [if_pos hc] at h
      have hp := List.find?_some h
      simp only [Bool.and_eq_true, beq_iff_eq] at hp
      exact ⟨by simpa using hc, List.mem_of_find?_eq_some h, hp.1, hp.2⟩
    · rw [if_neg hc] at h
      cases h
  · intro hall
    unfold validateCredentials
    split
    · apply List.find?_eq_none.mpr
      intro u hu
      simp only [Bool.and_eq_true, beq_iff_eq, not_and]
      intro he
      rw [hall u hu he]
      simp
    · rfl

/-- Witness for C10: with a correct password the active user logs in, and
the same password is refused once every `e@x` user is deactivated. -/
theorem validateCredentials_active_only_witness :
    (sampleCreds.lookup ("e@x") = some ("pw") ∧ activeUser ∈ dataActive.users ∧
      activeUser.email = "e@x" ∧ activeUser.isActive = true) ∧
    validateCredentials sampleCreds dataInactive ("e@x") ("pw") = none :=
  ⟨(validateCredentials_active_only sampleCreds dataActive ("e@x") ("pw")).1
      activeUser (by decide),
   (validateCredentials_active_only sampleCreds dataInactive ("e@x") ("pw")).2
      (by decide)⟩

/-- Claim C9: for every stored state and project id, when `deleteProject id`
returns true the resulting state contains no task of that project, every
task of a different project is kept, no task is invented, and the project
itself is removed; when no project with that id exists, the call returns
false and the state is unchanged. -/
theorem deleteProject_cascades_and_preserves (data : AppData) (id : String) :
    ((deleteProject data id).1 = true →
      (∀ t ∈ (deleteProject data id).2.tasks, ¬ t.projectId = id) ∧
      (∀ t ∈ data.tasks, ¬ t.projectId = id → t ∈ (deleteProject data id).2.tasks) ∧
      (∀ t ∈ (deleteProject data id).2.tasks, t ∈ data.tasks) ∧
      (∀ p ∈ (deleteProject data id).2.projects, ¬ p.id = id → p ∈ data.projects)) ∧
    ((∀ p ∈ data.projects, ¬ p.id = id) → deleteProject data id = (false, data)) := by
  constructor
  · intro htrue
    unfold deleteProject at *
    cases hfind : data.projects.find? (fun p => p.id == id) with
    | none => simp [hfind] at htrue
    | some q =>
      simp only [hfind]
      refine ⟨?_, ?_, ?_, ?_⟩
      · intro t ht
        simp only [List.mem_filter, Bool.not_eq_true', beq_eq_false_iff_ne] at ht
        exact ht.2
      · intro t ht hne
        simp only [List.mem_filter, Bool.not_eq_true', beq_eq_false_iff_ne]
        exact ⟨ht, hne⟩
      · intro t ht
        simp only [List.mem_filter] at ht
        exact ht.1
      · intro p hp _
        exact List.mem_of_mem_eraseP hp
  · intro hnone
    unfold deleteProject
    have : data.projects.find? (fun p => p.id == id) = none := by
      rw [List.find?_eq_none]
      intro p hp
      simpa using hnone p hp
    simp [this]

/-- Witness for C9 on a concrete state: a project `p1` with one task of its
own and one task of another project. -/
theorem deleteProject_cascades_and_preserves_witness :
    ((deleteProject sampleData "p1").1 = true →
      (∀ t ∈ (deleteProject sampleData "p1").2.tasks, ¬ t.projectId = "p1") ∧
      (∀ t ∈ sampleData.tasks, ¬ t.projectId = "p1" →
        t ∈ (deleteProject sampleData "p1").2.tasks) ∧
      (∀ t ∈ (deleteProject sampleData "p1").2.tasks, t ∈ sampleData.tasks) ∧
      (∀ p ∈ (deleteProject sampleData "p1").2.projects, ¬ p.id = "p1" →
        p ∈ sampleData.projects)) ∧
    ((∀ p ∈ sampleData.projects, ¬ p.id = "p1") →
      deleteProject sampleData "p1" = (false, sampleData)) :=
  deleteProject_cascades_and_preserves sampleData ("p1")

/-- Claim C1: deleting the sole remaining admin is refused by the storage
model with the state unchanged; deleting an admin while a second admin
exists succeeds and removes exactly that user; and at the endpoint, an
authenticated admin caller distinct from an existing admin target gets a
200 response with the target deleted (with a distinct admin caller the
target is never the last admin). -/
theorem deleteUser_last_admin_guard
    (data : AppData) (t : String) (u : User)
    (db : EdgeDb) (hdr cid tid : String) :
    (data.users.find? (fun x => x.id == t) = some u →
      u.role = "ADMIN" →
      (data.users.filter (fun x => x.role == "ADMIN")).length = 1 →
      deleteUser data t = (false, data)) ∧
    (data.users.find? (fun x => x.id == t) = some u →
      u.role = "ADMIN" →
      2 ≤ (data.users.filter (fun x => x.role == "ADMIN")).length →
      deleteUser data t =
        (true, { data with users := data.users.eraseP (fun x => x.id == t) })) ∧
    (singleRole db cid = some ("admin") →
      singleRole db tid = some ("admin") →
      ¬ tid = cid → ¬ tid = "" → tid ∈ db.authUsers →
      adminDeleteUser db ("POST") (some hdr) (some cid) (Except.ok (some tid))
          false false =
        ⟨⟨200, Body.jsonSuccess⟩, deleteUserEffect db tid, 1⟩) := by
  refine ⟨?_, ?_, ?_⟩
  · intro hfind hrole hlen
    unfold deleteUser
    rw [hfind]
    simp [hrole, hlen]
  · intro hfind hrole hlen
    unfold deleteUser
    rw [hfind]
    have h1 : ((data.users.filter (fun x => x.role == "ADMIN")).length == 1) = false := by
      have : (data.users.filter (fun x => x.role == "ADMIN")).length ≠ 1 := by omega
      simpa using this
    simp [h1]
  · intro hc ht hne hemp hmem
    have hcadm := mem_of_singleRole hc
    have htadm := mem_of_singleRole ht
    have hc2 : (cid, "admin") ∈ db.userRoles.filter (fun r => r.2 == "admin") :=
      List.mem_filter.mpr ⟨hcadm, by simp⟩
    have ht2 : (tid, "admin") ∈ db.userRoles.filter (fun r => r.2 == "admin") :=
      List.mem_filter.mpr ⟨htadm, by simp⟩
    have hpair : ((tid, "admin") : String × String) ≠ (cid, "admin") := by
      intro hcontra
      exact hne (congrArg Prod.fst hcontra)
    have hlen : 2 ≤ (db.userRoles.filter (fun r => r.2 == "admin")).length :=
      two_mem_le_length ht2 hc2 hpair
    have hlenb : (decide ((db.userRoles.filter (fun r => r.2 == "admin")).length ≤ 1)) = false := by
      simp only [decide_eq_false_iff_not, not_le]
      omega
    unfold adminDeleteUser
    simp [hc, ht, hne, hemp, hmem, isTruthy, hlenb]

/-- Witness for C1: the sole admin `a1` cannot be deleted; with a second
admin present the deletion succeeds, both in storage and at the endpoint
(admin `a1` deleting admin `a2`). -/
theorem deleteUser_last_admin_guard_witness :
    deleteUser dataOneAdmin ("a1") = (false, dataOneAdmin) ∧
    deleteUser dataTwoAdmins ("a2") =
      (true, { dataTwoAdmins with
                users := dataTwoAdmins.users.eraseP (fun x => x.id == "a2") }) ∧
    adminDeleteUser edgeDbTwoAdmins ("POST") (some ("h")) (some ("a1"))
        (Except.ok (some ("a2"))) false false =
      ⟨⟨200, Body.jsonSuccess⟩, deleteUserEffect edgeDbTwoAdmins ("a2"), 1⟩ :=
  ⟨(deleteUser_last_admin_guard dataOneAdmin ("a1") adminUser1 edgeDbTwoAdmins
      ("h") ("a1") ("a2")).1 (by decide) (by decide) (by decide),
   (deleteUser_last_admin_guard dataTwoAdmins ("a2") adminUser2 edgeDbTwoAdmins
      ("h") ("a1") ("a2")).2.1 (by decide) (by decide) (by decide),
   (deleteUser_last_admin_guard dataTwoAdmins ("a2") adminUser2 edgeDbTwoAdmins
      ("h") ("a1") ("a2")).2.2 (by decide) (by decide) (by decide) (by decide)
      (by decide)⟩

/-- Counterexample for C2: a non-admin user deleting themself is answered
with 403 `Only admins can delete users`, not the claimed 400
`Cannot delete your own account`; and the storage-model `deleteUser` has no
self-deletion check at all: called on the caller's own (non-last-admin)
account it returns true and removes it. -/
theorem self_delete_claim_counterexample :
    ¬ ((adminDeleteUser edgeDbOneUser ("POST") (some ("h")) (some ("u1"))
        (Except.ok (some ("u1"))) false false).resp =
      ⟨400, Body.jsonError ("Cannot delete your own account")⟩) ∧
    (adminDeleteUser edgeDbOneUser ("POST") (some ("h")) (some ("u1"))
        (Except.ok (some ("u1"))) false false).resp.status = 403 ∧
    deleteUser dataOneAdmin ("u1") =
      (true, { users := [adminUser1], projects := [], tasks := [],
               notifications := [] }) := by
  refine ⟨by decide, by decide, by decide⟩

/-- Claim C2 as amended: at the endpoint, an authenticated admin caller
targeting their own id gets HTTP 400 with body
`Cannot delete your own account` and no user is deleted; a non-admin
caller is rejected earlier with 403 and no user is deleted, so no
self-deletion ever succeeds at the endpoint — but the 400 validation
error is only reachable for admin callers, and the storage-model
`deleteUser` (which takes no caller) performs no self-deletion check. -/
theorem self_delete_endpoint_amended (db : EdgeDb) (hdr cid : String)
    (body : Except String (Option String)) (aqf df : Bool) :
    (singleRole db cid = some ("admin") → ¬ cid = "" →
      adminDeleteUser db ("POST") (some hdr) (some cid) (Except.ok (some cid)) aqf df =
        ⟨⟨400, Body.jsonError ("Cannot delete your own account")⟩, db, 0⟩) ∧
    (¬ (singleRole db cid = some ("admin")) →
      adminDeleteUser db ("POST") (some hdr) (some cid) body aqf df =
        ⟨⟨403, Body.jsonError ("Only admins can delete users")⟩, db, 0⟩) := by
  constructor
  · intro hrole hne
    unfold adminDeleteUser
    simp [hrole, hne, isTruthy]
  · intro hrole
    unfold adminDeleteUser
    simp [hrole]

/-- Witness for the amended C2: admin `a1` self-deleting gets the 400
validation error with nothing deleted; plain user `u1` self-deleting gets
403 with nothing deleted. -/
theorem self_delete_endpoint_amended_witness :
    adminDeleteUser edgeDbTwoAdmins ("POST") (some ("h")) (some ("a1"))
        (Except.ok (some ("a1"))) false false =
      ⟨⟨400, Body.jsonError ("Cannot delete your own account")⟩, edgeDbTwoAdmins, 0⟩ ∧
    adminDeleteUser edgeDbOneUser ("POST") (some ("h")) (some ("u1"))
        (Except.ok (some ("u1"))) false false =
      ⟨⟨403, Body.jsonError ("Only admins can delete users")⟩, edgeDbOneUser, 0⟩ :=
  ⟨(self_delete_endpoint_amended edgeDbTwoAdmins ("h") ("a1")
      (Except.ok (some ("a1"))) false false).1 (by decide) (by decide),
   (self_delete_endpoint_amended edgeDbOneUser ("h") ("u1")
      (Except.ok (some ("u1"))) false false).2 (by decide)⟩

/-- Claim C4: a create-user request whose bearer token resolves to an
authenticated user that holds no `admin` role row is answered 403 with a
JSON error body, the auth state is unchanged (no user is created), and no
admin-API call is made — for every request body. -/
theorem create_user_forbidden_non_admin (db : EdgeDb) (method hdr cid : String)
    (body : Except String CreateBody) (createFails : Bool) (newId : String) :
    ¬ method = "OPTIONS" →
    ((cid, "admin") : String × String) ∉ db.userRoles →
    adminCreateUser db method (some hdr) (some cid) body createFails newId =
      ⟨⟨403, Body.jsonError ("Only admins can create users")⟩, db, 0⟩ := by
  intro hm hrole
  have hsr : ¬ (singleRole db cid = some ("admin")) := by
    intro hcontra
    exact hrole (mem_of_singleRole hcontra)
  unfold adminCreateUser
  simp [hm, hsr]

/-- Witness for C4: the plain user `u1` asking to create a user (with a
well-formed body) is refused with 403 and nothing changes. -/
theorem create_user_forbidden_non_admin_witness :
    adminCreateUser edgeDbOneUser ("POST") (some ("h")) (some ("u1"))
        (Except.ok { email := some ("n@x"), password := some ("pw"),
                     name := some ("N"), role := some ("user") }) false ("n1") =
      ⟨⟨403, Body.jsonError ("Only admins can create users")⟩, edgeDbOneUser, 0⟩ :=
  create_user_forbidden_non_admin edgeDbOneUser ("POST") ("h") ("u1")
    (Except.ok { email := some ("n@x"), password := some ("pw"),
                 name := some ("N"), role := some ("user") }) false ("n1")
    (by decide) (by decide)

/-- Claim C8: every response of the two admin endpoints has status 200,
400, 401, 403 or 500; every non-200 response carries a JSON
`\x7b error: message \x7d` body; and each call performs at most one
admin-API mutation (no retry). -/
theorem endpoint_status_discipline :
    (∀ (db : EdgeDb) (method : String) (ah au : Option String)
        (body : Except String (Option String)) (aqf df : Bool),
      statusAllowed (adminDeleteUser db method ah au body aqf df).resp = true ∧
      errorBodyShape (adminDeleteUser db method ah au body aqf df).resp = true ∧
      (adminDeleteUser db method ah au body aqf df).adminApiCalls ≤ 1) ∧
    (∀ (db : EdgeDb) (method : String) (ah au : Option String)
        (body : Except String CreateBody) (cf : Bool) (newId : String),
      statusAllowed (adminCreateUser db method ah au body cf newId).resp = true ∧
      errorBodyShape (adminCreateUser db method ah au body cf newId).resp = true ∧
      (adminCreateUser db method ah au body cf newId).adminApiCalls ≤ 1) := by
  constructor
  · intro db method ah au body aqf df
    unfold adminDeleteUser
    repeat' (first | (simp [statusAllowed, errorBodyShape]; done) | split |
      simp only [statusAllowed, errorBodyShape])
  · intro db method ah au body cf newId
    unfold adminCreateUser
    repeat' (first | (simp [statusAllowed, errorBodyShape]; done) | split)

/-- Counterexample for C7: the admin `a1` passes the row-level-security
`SELECT` policy for `b1`'s project, yet `getProjectsForUser` returns the
empty list for `a1` — it is not extended to all projects for admins. -/
theorem admin_visibility_counterexample :
    projectSelectPolicy policyDbAdminA ("a1") sqlProjectB = true ∧
    getProjectsForUser dataForeign ("a1") = [] ∧
    ¬ (getProjectsForUser dataForeign ("a1") = dataForeign.projects) := by
  refine ⟨by decide, by decide, by decide⟩

/-- Claim C7 as amended: the row-level-security policy makes a project
visible exactly to its owner, its members (via `project_members` rows) and
admins; `getProjectsForUser`, by contrast, returns exactly the projects
whose owner is the user or whose member list contains the user, with no
admin extension. -/
theorem project_visibility_amended (db : PolicyDb) (uid : String)
    (p : SqlProject) (data : AppData) (q : Project) :
    (projectSelectPolicy db uid p = true ↔
      (p.owner_id = uid ∨ (∃ m ∈ db.projectMembers, m.1 = p.id ∧ m.2 = uid) ∨
        (uid, "admin") ∈ db.userRoles)) ∧
    (q ∈ getProjectsForUser data uid ↔
      (q ∈ data.projects ∧ (q.ownerId = uid ∨ uid ∈ q.members))) := by
  constructor
  · unfold projectSelectPolicy isAdminSql hasRole
    simp only [Bool.or_eq_true, List.any_eq_true, Bool.and_eq_true, beq_iff_eq]
    constructor
    · rintro ((h | ⟨m, hm, h1, h2⟩) | ⟨r, hr, h1, h2⟩)
      · exact Or.inl h
      · exact Or.inr (Or.inl ⟨m, hm, h1, h2⟩)
      · refine Or.inr (Or.inr ?_)
        have : r = (uid, "admin") := by
          obtain ⟨r1, r2⟩ := r
          simp only [Prod.mk.injEq]
          exact ⟨h1, h2⟩
        rwa [this] at hr
    · rintro (h | ⟨m, hm, h1, h2⟩ | h)
      · exact Or.inl (Or.inl h)
      · exact Or.inl (Or.inr ⟨m, hm, h1, h2⟩)
      · exact Or.inr ⟨(uid, "admin"), h, rfl, rfl⟩
  · unfold getProjectsForUser
    simp [List.mem_filter, List.elem_iff]

/-- Counterexample for C5: an update payload carrying a `createdAt` value
is persisted both by the storage `updateTask` (object spread) and by the
SQL update (the trigger only rewrites `updated_at`), so `created_at` does
not retain its original value for every client-supplied update. -/
theorem created_at_client_settable_counterexample :
    ((updateTask data5 ("t1") patch5 ("NOW")).1.map (fun t => t.createdAt)) =
      some ("2031-01-01") ∧
    ¬ (((updateTask data5 ("t1") patch5 ("NOW")).1.map (fun t => t.createdAt)) =
      some ("2020-01-01")) ∧
    (sqlUpdateTaskRow ("NOW") sqlPatch5 sqlTask5).created_at = "2031-01-01" ∧
    ¬ ((sqlUpdateTaskRow ("NOW") sqlPatch5 sqlTask5).created_at = "2020-01-01") := by
  refine ⟨by decide, by decide, by decide, by decide⟩

/-- Claim C5 as amended: `updated_at` is set server-side on every update,
overriding any client-supplied value, in both the storage model and the
SQL trigger model; `created_at` retains its original value only when the
client update carries no `created_at` field — a client-supplied
`created_at` is persisted. -/
theorem timestamps_amended (data : AppData) (id : String) (u : TaskPatch)
    (now : String) (t : SqlTask) (su : SqlTaskPatch) :
    (∀ m, (updateTask data id u now).1 = some m → m.updatedAt = now) ∧
    (u.createdAt = none → ∀ m, (updateTask data id u now).1 = some m →
      ∃ old, data.tasks.find? (fun x => x.id == id) = some old ∧
        m.createdAt = old.createdAt) ∧
    ((sqlUpdateTaskRow now su t).updated_at = now) ∧
    (su.created_at = none → (sqlUpdateTaskRow now su t).created_at = t.created_at) := by
  refine ⟨?_, ?_, rfl, ?_⟩
  · intro m hm
    unfold updateTask at hm
    cases hf : data.tasks.find? (fun x => x.id == id) with
    | none => rw [hf] at hm; cases hm
    | some old =>
      rw [hf] at hm
      simp only [Option.some.injEq] at hm
      rw [← hm]
  · intro hnone m hm
    unfold updateTask at hm
    cases hf : data.tasks.find? (fun x => x.id == id) with
    | none => rw [hf] at hm; cases hm
    | some old =>
      rw [hf] at hm
      simp only [Option.some.injEq] at hm
      refine ⟨old, rfl, ?_⟩
      rw [← hm]
      simp [spreadTask, hnone]
  · intro hnone
    unfold sqlUpdateTaskRow updateUpdatedAtColumn applySqlTaskPatch
    simp [hnone]

/-- Witness for the amended C5: an update payload without `createdAt`
keeps the original creation date while `updatedAt` becomes the server
time, in both models. -/
theorem timestamps_amended_witness :
    (∀ m, (updateTask data5 ("t1") { status := some ("DONE") } ("NOW")).1 = some m →
      m.updatedAt = "NOW") ∧
    (∃ old, data5.tasks.find? (fun x => x.id == "t1") = some old ∧
      ((updateTask data5 ("t1") { status := some ("DONE") } ("NOW")).1.getD oldTask5).createdAt =
        old.createdAt) ∧
    (sqlUpdateTaskRow ("NOW") { status := some ("DONE") } sqlTask5).updated_at = "NOW" ∧
    (sqlUpdateTaskRow ("NOW") { status := some ("DONE") } sqlTask5).created_at =
      sqlTask5.created_at := by
  have h := timestamps_amended data5 ("t1") { status := some ("DONE") } ("NOW")
    sqlTask5 { status := some ("DONE") }
  refine ⟨h.1, ?_, h.2.2.1, h.2.2.2 rfl⟩
  obtain ⟨old, hfind, hc⟩ := h.2.1 rfl ((updateTask data5 ("t1")
    { status := some ("DONE") } ("NOW")).1.getD oldTask5) (by decide)
  exact ⟨old, hfind, hc⟩

/-- `createTaskNotification` never touches the `tasks` table. -/
theorem createTaskNotification_tasks (db : ClientDb) (userId taskId taskTitle typ : String)
    (nf : Bool) :
    (createTaskNotification db userId taskId taskTitle typ nf).1.tasks = db.tasks := by
  unfold createTaskNotification
  split
  · cases nf <;> rfl
  · rfl

/-- Counterexample for C3: creating a task with a (truthy) assignee
performs zero email-channel eligibility checks, not exactly one — the
client helper only checks the in-app flag and never contacts the email
endpoint. -/
theorem email_check_count_counterexample :
    isTruthy taskInsertA.assignee_id = true ∧
    countEmailChecks ((useCreateTaskFn clientDb0 taskInsertA ("t1") ("now")
      false false).2.2) = 0 ∧
    ¬ (countEmailChecks ((useCreateTaskFn clientDb0 taskInsertA ("t1") ("now")
      false false).2.2) = 1) := by
  refine ⟨by decide, by decide, by decide⟩

/-- Claim C3 as amended: a task created with a truthy assignee triggers
exactly one in-app eligibility check and zero email eligibility checks;
the in-app insert happens exactly when the user's
`in_app_task_assigned` flag (defaulting to enabled without a settings
row) allows it; and the `send-task-notification` endpoint — which the
creation flow does not invoke — performs, per invocation with an existing
profile, exactly one email eligibility check on `email_task_assigned` /
`email_task_updated` with the same default, skipping the send exactly
when the flag is off. -/
theorem notification_eligibility_amended (db : ClientDb) (task : TaskInsert)
    (newId now : String) (nf : Bool) (edb : ClientDb) (nb : NotifyBody)
    (sf lf : Bool) :
    (isTruthy task.assignee_id = true →
      countInAppChecks ((useCreateTaskFn db task newId now false nf).2.2) = 1 ∧
      countEmailChecks ((useCreateTaskFn db task newId now false nf).2.2) = 0 ∧
      ((useCreateTaskFn db task newId now false nf).2.2).any Ev.isNotifInsert =
        shouldShowInApp (db.notificationSettings.find?
          (fun s => s.user_id == task.assignee_id.getD (""))) ("assigned")) ∧
    (task.assignee_id = none →
      (useCreateTaskFn db task newId now false nf).2.2 = []) ∧
    (∀ profile,
      singleRow (edb.profiles.filter (fun p => p.user_id == nb.userId)) =
        some profile →
      countEmailChecks ((sendTaskNotification edb ("POST") (Except.ok nb) sf lf).evs) = 1 ∧
      (((sendTaskNotification edb ("POST") (Except.ok nb) sf lf).resp.body =
          Body.jsonSuccessSkipped) ↔
        shouldSendEmail (edb.notificationSettings.find?
          (fun s => s.user_id == nb.userId)) nb.type = false)) := by
  refine ⟨?_, ?_, ?_⟩
  · intro htruthy
    unfold useCreateTaskFn
    simp only [if_neg (by simp : ¬ false = true), htruthy, if_pos]
    unfold createTaskNotification
    split
    · rename_i hgate
      constructor
      · cases nf <;> simp [countInAppChecks, Ev.isInAppCheck, Ev.isEmailCheck]
      · constructor
        · cases nf <;> simp [countEmailChecks, Ev.isInAppCheck, Ev.isEmailCheck]
        · cases nf <;> simp_all [Ev.isNotifInsert, insertTaskRow]
    · rename_i hgate
      refine ⟨by simp [countInAppChecks, Ev.isInAppCheck], by simp [countEmailChecks, Ev.isEmailCheck], ?_⟩
      simp_all [Ev.isNotifInsert, insertTaskRow]
  · intro hnone
    unfold useCreateTaskFn
    simp [hnone, isTruthy]
  · intro profile hprof
    by_cases hg : shouldSendEmail (edb.notificationSettings.find?
        (fun s => s.user_id == nb.userId)) nb.type = true
    · cases sf <;> cases lf <;>
        simp [sendTaskNotification, hprof, hg, countEmailChecks, Ev.isEmailCheck]
    · simp only [Bool.not_eq_true] at hg
      simp [sendTaskNotification, hprof, hg, countEmailChecks, Ev.isEmailCheck]

/-- Witness for the amended C3 on concrete data: one in-app check and no
email check for an assigned creation, the in-app insert following the
default-enabled gate; an unassigned creation checks nothing; the email
endpoint, when invoked, performs exactly one email check. -/
theorem notification_eligibility_amended_witness :
    (countInAppChecks ((useCreateTaskFn clientDb0 taskInsertA ("t1") ("now")
        false false).2.2) = 1 ∧
      countEmailChecks ((useCreateTaskFn clientDb0 taskInsertA ("t1") ("now")
        false false).2.2) = 0 ∧
      ((useCreateTaskFn clientDb0 taskInsertA ("t1") ("now") false false).2.2).any
          Ev.isNotifInsert =
        shouldShowInApp (clientDb0.notificationSettings.find?
          (fun s => s.user_id == taskInsertA.assignee_id.getD (""))) ("assigned")) ∧
    ((useCreateTaskFn clientDb0 taskInsertNoA ("t1") ("now") false false).2.2 = []) ∧
    (countEmailChecks ((sendTaskNotification clientDbP ("POST")
        (Except.ok notifyBodyA) false false).evs) = 1 ∧
      (((sendTaskNotification clientDbP ("POST") (Except.ok notifyBodyA)
          false false).resp.body = Body.jsonSuccessSkipped) ↔
        shouldSendEmail (clientDbP.notificationSettings.find?
          (fun s => s.user_id == notifyBodyA.userId)) notifyBodyA.type = false)) :=
  ⟨(notification_eligibility_amended clientDb0 taskInsertA ("t1") ("now") false
      clientDbP notifyBodyA false false).1 (by decide),
   (notification_eligibility_amended clientDb0 taskInsertNoA ("t1") ("now") false
      clientDbP notifyBodyA false false).2.1 (by decide),
   (notification_eligibility_amended clientDb0 taskInsertA ("t1") ("now") false
      clientDbP notifyBodyA false false).2.2 profileU1 (by decide)⟩

/-- Claim C6: the task mutation survives every notification-side failure —
a failed in-app notification insert changes nothing about the committed
task insert or update; the email endpoint never touches the `tasks` table
whatever fails; and the eligibility decision of each call depends only on
the stored `notification_settings` (no deduplication against existing
notifications). -/
theorem best_effort_notifications :
    (∀ (db : ClientDb) (task : TaskInsert) (newId now : String) (nf : Bool),
      (useCreateTaskFn db task newId now false nf).2.1.tasks =
        db.tasks ++ [insertTaskRow task newId now]) ∧
    (∀ (db : ClientDb) (id : String) (updates : SqlTaskPatch)
        (prev : Option String) (now : String) (nf : Bool) (old : SqlTask),
      db.tasks.find? (fun t => t.id == id) = some old →
      (useUpdateTaskFn db id updates prev now false nf).2.1.tasks =
        replaceFirst (fun t => t.id == id) (sqlUpdateTaskRow now updates old)
          db.tasks) ∧
    (∀ (edb : ClientDb) (method : String) (body : Except String NotifyBody)
        (sf lf : Bool),
      (sendTaskNotification edb method body sf lf).db.tasks = edb.tasks) ∧
    (∀ (db1 db2 : ClientDb) (userId taskId title typ : String) (nf : Bool),
      db1.notificationSettings = db2.notificationSettings →
      (createTaskNotification db1 userId taskId title typ nf).2 =
        (createTaskNotification db2 userId taskId title typ nf).2) := by
  refine ⟨?_, ?_, ?_, ?_⟩
  · intro db task newId now nf
    by_cases ha : isTruthy task.assignee_id = true
    · simp [useCreateTaskFn, ha, createTaskNotification_tasks]
    · simp only [Bool.not_eq_true] at ha
      simp [useCreateTaskFn, ha]
  · intro db id updates prev now nf old hfind
    unfold useUpdateTaskFn
    simp only [Bool.false_eq_true, if_false, hfind]
    split
    · rw [createTaskNotification_tasks]
    · split
      · rw [createTaskNotification_tasks]
      · rfl
  · intro edb method body sf lf
    unfold sendTaskNotification
    repeat' split
    all_goals cases lf <;> rfl
  · intro db1 db2 userId taskId title typ nf h
    unfold createTaskNotification
    rw [h]
    split <;> rfl

/-- Witness for C6 on concrete data: a create and an update whose
notification insert fails still leave the task mutation committed; the
email endpoint leaves `tasks` alone; and two databases differing only in
stored notifications make the same eligibility decision. -/
theorem best_effort_notifications_witness :
    (useCreateTaskFn clientDb0 taskInsertA ("t1") ("now") false true).2.1.tasks =
      clientDb0.tasks ++ [insertTaskRow taskInsertA ("t1") ("now")] ∧
    (useUpdateTaskFn clientDbT ("t1") sqlPatch5 none ("now") false true).2.1.tasks =
      replaceFirst (fun t => t.id == "t1")
        (sqlUpdateTaskRow ("now") sqlPatch5 sqlTask5) clientDbT.tasks ∧
    (sendTaskNotification clientDbP ("POST") (Except.ok notifyBodyA)
        false true).db.tasks = clientDbP.tasks ∧
    (createTaskNotification clientDb0 ("u1") ("t1") ("T") ("assigned") false).2 =
      (createTaskNotification clientDbP ("u1") ("t1") ("T") ("assigned") false).2 :=
  ⟨best_effort_notifications.1 clientDb0 taskInsertA ("t1") ("now") true,
   best_effort_notifications.2.1 clientDbT ("t1") sqlPatch5 none ("now") true
     sqlTask5 (by decide),
   best_effort_notifications.2.2.1 clientDbP ("POST") (Except.ok notifyBodyA)
     false true,
   best_effort_notifications.2.2.2 clientDb0 clientDbP ("u1") ("t1") ("T")
     ("assigned") false (by decide)⟩

/-- Witness for the amended C7 at concrete data: the policy biconditional
and the `getProjectsForUser` membership characterisation, instantiated
for the admin `a1` and `b1`'s project. -/
theorem project_visibility_amended_witness :
    (projectSelectPolicy policyDbAdminA ("a1") sqlProjectB = true ↔
      (sqlProjectB.owner_id = "a1" ∨
        (∃ m ∈ policyDbAdminA.projectMembers, m.1 = sqlProjectB.id ∧ m.2 = "a1") ∨
        (("a1", "admin") : String × String) ∈ policyDbAdminA.userRoles)) ∧
    (projForeign ∈ getProjectsForUser dataForeign ("a1") ↔
      (projForeign ∈ dataForeign.projects ∧
        (projForeign.ownerId = "a1" ∨ "a1" ∈ projForeign.members))) :=
  project_visibility_amended policyDbAdminA ("a1") sqlProjectB dataForeign projForeign

end PMApp
